import Mathlib

set_option maxRecDepth 8000

/-!
Verification of the match-scoring engine and batch download orchestrator of
spotify-saver (src/spotifysaver/services/score_match_calculator.py and
src/spotifysaver/downloader/youtube_downloader.py), as a shallow embedding:
pure Python functions become Lean functions over ℚ / String / List, Python
exceptions become `Except PyErr`, and the downloader's observable side effects
become an explicit trace (`List Effect`) returned alongside the result.
-/

namespace SpotifySaver

/-! ### Catalog data model -/

/-- Modelled from the spec: an immutable catalog track value (§3 CatalogTrack).
The `Track` class itself (models/track.py) is not under src/; the fields here are
exactly those read by the scorer and the downloader under verification. An absent
optional string field is modelled as `""` (the source only ever tests these fields
for Python truthiness, which identifies `None` and `""`). Duration is whole
seconds. -/
structure Track where
  name : String
  artists : List String
  album_name : String
  release_date : String
  duration : Int
  source_type : String
  playlist_name : String
  cover_url : String
  has_lyrics : Option Bool := none
deriving DecidableEq

/-- Modelled from the spec: the copy-with-override lyrics-status update of §3
("with lyrics status" yields a new value, not an in-place mutation). -/
def Track.with_lyrics_status (t : Track) (b : Bool) : Track :=
  { t with has_lyrics := some b }

/-- Modelled from the spec: a catalog album aggregate (§3 CatalogAlbum). -/
structure Album where
  name : String
  artists : List String
  release_date : String
  cover_url : String
  tracks : List Track
deriving DecidableEq

/-- Modelled from the spec: a catalog playlist aggregate (§3 CatalogPlaylist). -/
structure Playlist where
  name : String
  cover_url : String
  tracks : List Track
deriving DecidableEq

/-! ### Candidate-result data seen by the scorer -/

/-- One entry of the candidate's raw `artists` list. The source iterates
`{a["name"].lower() for a in yt_artists_raw if isinstance(a, dict)}`: a non-dict
entry is skipped, a dict entry has its `"name"` key read (raising `KeyError` when
absent, modelled by `dictUnnamed`). -/
inductive YtEntry where
  | nonDict
  | dictNamed (name : String)
  | dictUnnamed
deriving DecidableEq

/-- The candidate's `album` field when it is a dict: `nonEmptyDict` is its Python
truthiness, `name` the value of its `"name"` key when present. -/
structure YtAlbumDict where
  nonEmptyDict : Bool
  name : Option String
deriving DecidableEq

/-- The candidate's `album` field, `Union[str, Dict]` in the source. -/
inductive YtAlbumData where
  | asStr (v : String)
  | asDict (d : YtAlbumDict)
deriving DecidableEq

/-- A candidate result dict as consumed by the scorer. The source reads every
field through `.get` with a default, so a missing key and the default value are
identified; `album` keeps `Option` because its default is `None`. -/
structure YtResult where
  title : String := ""
  videoId : String := ""
  duration_seconds : Int := 0
  artists : List YtEntry := []
  album : Option YtAlbumData := none
deriving DecidableEq

/-- Python exceptions that the embedded code can raise. -/
inductive PyErr where
  | indexError
  | keyError
  | valueError
  | fetchError
  | tagError
  | callbackError
deriving DecidableEq

/-! ### Python string helpers -/

/-- Python `str.lower` restricted to ASCII case mapping (all strings the source
compares are handled identically). -/
def str_lower (s : String) : String := ⟨s.data.map Char.toLower⟩

/-- Whitespace as matched by `\s` / split() / strip() in the source (ASCII set). -/
def pyIsSpace (c : Char) : Bool :=
  c = ' ' || c = '\t' || c = '\n' || c = '\r' || c = '\x0b' || c = '\x0c'

/-- Helper for `pySplit`: accumulates the current word reversed. -/
def pySplitAux : List Char → List Char → List (List Char)
  | [], acc => if acc = [] then [] else [acc.reverse]
  | c :: rest, acc =>
      if pyIsSpace c then
        (if acc = [] then pySplitAux rest [] else acc.reverse :: pySplitAux rest [])
      else pySplitAux rest (c :: acc)

/-- Python `str.split()` with no argument: split on whitespace runs, dropping
empty fields. -/
def pySplit (s : List Char) : List (List Char) := pySplitAux s []

/-- Fuel-driven body of `remove_all`; fuel `s.length` always suffices since each
step consumes at least one character. -/
def remove_all_fuel (pat : List Char) : Nat → List Char → List Char
  | 0, s => s
  | _ + 1, [] => []
  | fuel + 1, c :: rest =>
      if pat ≠ [] ∧ pat.isPrefixOf (c :: rest) = true then
        remove_all_fuel pat fuel ((c :: rest).drop pat.length)
      else c :: remove_all_fuel pat fuel rest

/-- Python `str.replace(pat, "")`: removes every occurrence of `pat`, scanning
left to right, continuing after each removed occurrence. -/
def remove_all (pat s : List Char) : List Char := remove_all_fuel pat s.length s

/-- Distinct elements of a list (set cardinality/membership model for Python's
`set(...)`; only sizes and membership of the result are ever used). -/
def dedupKeep {α : Type} [DecidableEq α] : List α → List α
  | [] => []
  | x :: xs =>
      let r := dedupKeep xs
      if x ∈ r then r else x :: r

/-! ### ScoreMatchCalculator._normalize -/

/-- Embedding of `ScoreMatchCalculator._normalize`: lowercase, remove the
substrings "official" and "video", delete the characters `()[]-`, then drop the
standalone words "lyrics" and "audio" and rejoin with single spaces. -/
def normalize (text : String) : String :=
  let t := (str_lower text).data
  let t := remove_all "official".data t
  let t := remove_all "video".data t
  let t := t.filter (fun c => !(['(', ')', '[', ']', '-'].contains c))
  let ws := (pySplit t).filter (fun w => !(w == "lyrics".data || w == "audio".data))
  ⟨List.intercalate [' '] ws⟩

/-! ### difflib.SequenceMatcher ratio (used by `_similar`)

CPython's `SequenceMatcher(None, a, b).ratio()` with `isjunk = None`:
`b2j` maps each element of `b` to its ascending positions, dropping "popular"
elements when `len(b) ≥ 200` (autojunk); `find_longest_match` runs the
Ratcliff-Obershelp longest-block search; `ratio` is `2·M/(len a + len b)` where
`M` sums the sizes of all matching blocks. All recursions are fuel-driven with
provably sufficient fuel so terms reduce by computation. -/

/-- Ascending positions of `c` in `b`. -/
def occPositions (b : List Char) (c : Char) : List Nat :=
  (List.range b.length).filter (fun j => b.get? j == some c)

/-- CPython autojunk: with `len(b) ≥ 200`, an element occurring more than
`len(b)/100 + 1` times is dropped from `b2j`. -/
def popularChar (b : List Char) (c : Char) : Bool :=
  decide (200 ≤ b.length) && decide (b.length / 100 + 1 < (b.filter (fun d => d == c)).length)

/-- The `b2j` table lookup. -/
def b2j (b : List Char) (c : Char) : List Nat :=
  if popularChar b c then [] else occPositions b c

/-- Inner loop of `find_longest_match` for row `i`: folds over the eligible
positions of `a[i]` in `b`, building the new `j2len` row and updating the best
block (strict improvement only, as in CPython). -/
def flmInner (j2len : List (Nat × Nat)) (i : Nat) (js : List Nat) (best : Nat × Nat × Nat) :
    List (Nat × Nat) × (Nat × Nat × Nat) :=
  js.foldl
    (fun acc j =>
      let prev := if j = 0 then 0 else (((j2len.find? (fun p => p.1 == j - 1)).map Prod.snd).getD 0)
      let k := prev + 1
      let m := (j, k) :: acc.1
      let best' := if acc.2.2.2 < k then (i + 1 - k, j + 1 - k, k) else acc.2
      (m, best'))
    ([], best)

/-- Outer loop of `find_longest_match` over the rows `i ∈ [alo, ahi)`. -/
def flmRows (a b : List Char) (blo bhi : Nat) :
    List Nat → List (Nat × Nat) → Nat × Nat × Nat → Nat × Nat × Nat
  | [], _, best => best
  | i :: is, j2len, best =>
      let c := a.getD i ' '
      let js := ((b2j b c).takeWhile (fun j => decide (j < bhi))).filter (fun j => decide (blo ≤ j))
      let r := flmInner j2len i js best
      flmRows a b blo bhi is r.1 r.2

/-- Backward extension of the best block (CPython's first while loop; the junk
sets are empty with `isjunk = None` so the junk loops never fire). -/
def extendBack (a b : List Char) (alo blo : Nat) :
    Nat → Nat → Nat → Nat → Nat × Nat × Nat
  | 0, besti, bestj, bestsize => (besti, bestj, bestsize)
  | fuel + 1, besti, bestj, bestsize =>
      if alo < besti ∧ blo < bestj ∧ (a.get? (besti - 1)).isSome = true ∧
          a.get? (besti - 1) = b.get? (bestj - 1) then
        extendBack a b alo blo fuel (besti - 1) (bestj - 1) (bestsize + 1)
      else (besti, bestj, bestsize)

/-- Forward extension of the best block (CPython's second while loop). -/
def extendFwd (a b : List Char) (ahi bhi besti bestj : Nat) :
    Nat → Nat → Nat
  | 0, bestsize => bestsize
  | fuel + 1, bestsize =>
      if besti + bestsize < ahi ∧ bestj + bestsize < bhi ∧
          (a.get? (besti + bestsize)).isSome = true ∧
          a.get? (besti + bestsize) = b.get? (bestj + bestsize) then
        extendFwd a b ahi bhi besti bestj fuel (bestsize + 1)
      else bestsize

/-- CPython `SequenceMatcher.find_longest_match` on the slice
`a[alo:ahi] × b[blo:bhi]`. -/
def findLongestMatch (a b : List Char) (alo ahi blo bhi : Nat) : Nat × Nat × Nat :=
  let best := flmRows a b blo bhi ((List.range ahi).drop alo) [] (alo, blo, 0)
  let eb := extendBack a b alo blo best.1 best.1 best.2.1 best.2.2
  let k := extendFwd a b ahi bhi eb.1 eb.2.1 ahi eb.2.2
  (eb.1, eb.2.1, k)

/-- Sum of the sizes of all matching blocks (the `matches` count of `ratio()`;
the recursion mirrors `get_matching_blocks`' queue splitting, whose block-size
sum it equals). Fuel `len a + len b + 1` suffices: every split removes at least
one position from the combined span. -/
def matchesTotal (a b : List Char) : Nat → Nat × Nat × Nat × Nat → Nat
  | 0, _ => 0
  | fuel + 1, (alo, ahi, blo, bhi) =>
      let m := findLongestMatch a b alo ahi blo bhi
      let i := m.1
      let j := m.2.1
      let k := m.2.2
      if k = 0 then 0
      else
        (if alo < i ∧ blo < j then matchesTotal a b fuel (alo, i, blo, j) else 0) + k +
        (if i + k < ahi ∧ j + k < bhi then matchesTotal a b fuel (i + k, ahi, j + k, bhi) else 0)

/-- `difflib.SequenceMatcher(None, a, b).ratio()`: `2·M/T`, or `1.0` when both
strings are empty. -/
def seqRatio (a b : String) : ℚ :=
  let la := a.data.length
  let lb := b.data.length
  if la + lb = 0 then 1
  else (2 * (matchesTotal a.data b.data (la + lb + 1) (0, la, 0, lb)) : ℚ) / ((la + lb : Nat) : ℚ)

/-- Embedding of `ScoreMatchCalculator._similar`. -/
def similar (a b : String) : ℚ := seqRatio a b

/-! ### The four sub-scores -/

/-- Embedding of `ScoreMatchCalculator._score_duration`:
`1 if diff <= 2 else max(0, 1 - diff/5) * 0.3`. -/
def score_duration (yt_duration sp_duration : Int) : ℚ :=
  let diff : Int := |yt_duration - sp_duration|
  if diff ≤ 2 then 1 else max 0 (1 - (diff : ℚ) / 5) * (3/10)

/-- Lowercased names of the dict entries of the raw artist list; errors with
`KeyError` when a dict entry has no `"name"` key, as the source's set
comprehension does. -/
def yt_artist_names : List YtEntry → Except PyErr (List String)
  | [] => .ok []
  | .nonDict :: rest => yt_artist_names rest
  | .dictUnnamed :: _ => .error .keyError
  | .dictNamed n :: rest =>
      match yt_artist_names rest with
      | .error e => .error e
      | .ok r => .ok (str_lower n :: r)

/-- Embedding of `ScoreMatchCalculator._score_artist_overlap`. Indexing
`sp_artists[0]` raises `IndexError` on an empty catalog artist list (after the
overlap ratio, which is guarded by `max(len, 1)`, has been computed). -/
def score_artist_overlap (yt_artists_raw : List YtEntry) (sp_artists : List String) :
    Except PyErr ℚ :=
  match yt_artist_names yt_artists_raw with
  | .error e => .error e
  | .ok names =>
      let yt_artists := dedupKeep names
      let sp_set := dedupKeep (sp_artists.map str_lower)
      let overlap : ℚ :=
        ((yt_artists.filter (fun x => decide (x ∈ sp_set))).length : ℚ) /
          ((max sp_set.length 1 : Nat) : ℚ)
      match sp_artists with
      | [] => .error .indexError
      | s :: _ =>
          .ok (overlap * (3/10) + if str_lower s ∈ yt_artists then 1/10 else 0)

/-- Embedding of `ScoreMatchCalculator._score_title_similarity`: normalized
sequence similarity, halved when token overlap is below 0.3, weighted by 0.3. -/
def score_title_similarity (yt_title sp_title : String) : ℚ :=
  let norm_yt := normalize yt_title
  let norm_sp := normalize sp_title
  let similarity := similar norm_yt norm_sp
  let yt_tokens := dedupKeep (pySplit norm_yt.data)
  let sp_tokens := dedupKeep (pySplit norm_sp.data)
  let token_overlap : ℚ :=
    ((yt_tokens.filter (fun w => decide (w ∈ sp_tokens))).length : ℚ) /
      ((max sp_tokens.length 1 : Nat) : ℚ)
  let similarity := if token_overlap < 3/10 then similarity * (1/2) else similarity
  similarity * (3/10)

/-- Python substring containment `pat in hay`. -/
def containsSub (hay pat : List Char) : Bool :=
  (List.range (hay.length + 1)).any (fun i => pat.isPrefixOf (hay.drop i))

/-- Embedding of `ScoreMatchCalculator._score_album_bonus`: `0.1` when both album
names are truthy and the catalog album name (lowercased) is a substring of the
candidate's album name (lowercased). -/
def score_album_bonus (album_data : Option YtAlbumData) (sp_album : String) : ℚ :=
  let falsy : Bool :=
    match album_data with
    | none => true
    | some (.asStr v) => v == ""
    | some (.asDict d) => !d.nonEmptyDict
  if falsy = true ∨ sp_album = "" then 0
  else
    let album_name :=
      match album_data with
      | some (.asDict d) => str_lower (d.name.getD "")
      | some (.asStr v) => str_lower v
      | none => ""
    if containsSub album_name.data (str_lower sp_album).data then 1/10 else 0

/-! ### _calculate_match_score and explain_score -/

/-- The four sub-scores of one scoring run. -/
structure Components where
  dur : ℚ
  art : ℚ
  tit : ℚ
  alb : ℚ
deriving DecidableEq

/-- The shared sub-score computation performed (in this order, with these
arguments) by both `_calculate_match_score` and `explain_score`: duration, then
artist overlap (which may raise), then title similarity, then album bonus. -/
def score_components (yt_result : YtResult) (track : Track) : Except PyErr Components :=
  let d := score_duration yt_result.duration_seconds track.duration
  match score_artist_overlap yt_result.artists track.artists with
  | .error e => .error e
  | .ok a =>
      .ok ⟨d, a, score_title_similarity yt_result.title track.name,
        score_album_bonus yt_result.album track.album_name⟩

/-- The acceptance threshold: `0.7 if strict else 0.6`. -/
def thresholdFor (strict : Bool) : ℚ := if strict then 7/10 else 3/5

/-- Embedding of `ScoreMatchCalculator._calculate_match_score`: sums the four
sub-scores, caps the total at 0.5 when the title sub-score is below 0.1, returns
the (capped) total when it meets the threshold and `0` otherwise; any internal
exception is caught and yields `0`. -/
def calculate_match_score (yt_result : YtResult) (track : Track) (strict : Bool) : ℚ :=
  match score_components yt_result track with
  | .error _ => 0
  | .ok c =>
      let total_score := c.dur + c.art + c.tit + c.alb
      let total_score := if c.tit < 1/10 then min total_score (1/2) else total_score
      if thresholdFor strict ≤ total_score then total_score else 0

/-- Round-half-even at integer precision (Python's rounding mode). -/
def roundHalfEven (q : ℚ) : ℤ :=
  let f := q - (⌊q⌋ : ℚ)
  if f < 1/2 then ⌊q⌋
  else if 1/2 < f then ⌊q⌋ + 1
  else if ⌊q⌋ % 2 = 0 then ⌊q⌋ else ⌊q⌋ + 1

/-- Python `round(x, 3)` in the idealized exact-rational semantics. -/
def pyRound3 (q : ℚ) : ℚ := (roundHalfEven (q * 1000) : ℚ) / 1000

/-- The dict returned by `explain_score` on success: each component rounded to
3 decimals, the threshold, and the pass flag computed from the unrounded total. -/
structure ScoreBreakdown where
  yt_title : String
  yt_videoId : String
  duration_score : ℚ
  artist_score : ℚ
  title_score : ℚ
  album_bonus : ℚ
  total_score : ℚ
  threshold : ℚ
  passed : Bool
deriving DecidableEq

/-- Result of `explain_score`: the breakdown dict, or the `{"error": ...}` dict
when the computation raised. -/
inductive ExplainResult where
  | breakdown (b : ScoreBreakdown)
  | errorDict
deriving DecidableEq

/-- Embedding of `ScoreMatchCalculator.explain_score`: the same sub-score
computation as `_calculate_match_score`, itemized; note it applies no cap to the
total before the `passed` comparison. -/
def explain_score (yt_result : YtResult) (track : Track) (strict : Bool) : ExplainResult :=
  match score_components yt_result track with
  | .error _ => .errorDict
  | .ok c =>
      let total_score := c.dur + c.art + c.tit + c.alb
      let th := thresholdFor strict
      .breakdown
        { yt_title := yt_result.title
          yt_videoId := yt_result.videoId
          duration_score := pyRound3 c.dur
          artist_score := pyRound3 c.art
          title_score := pyRound3 c.tit
          album_bonus := pyRound3 c.alb
          total_score := pyRound3 total_score
          threshold := th
          passed := decide (th ≤ total_score) }

/-! ### Decidability of `Except` equality (used to evaluate concrete runs) -/

deriving instance DecidableEq for Except

/-! ### Derived totals of the scorer -/

/-- The raw (uncapped) sum of the four sub-scores. -/
def rawTotal (c : Components) : ℚ := c.dur + c.art + c.tit + c.alb

/-- The total after `_calculate_match_score`'s low-title-similarity cap
(`if title_score < 0.1: total_score = min(total_score, 0.5)`). -/
def cappedTotal (c : Components) : ℚ :=
  if c.tit < 1/10 then min (rawTotal c) (1/2) else rawTotal c

/-- Unfolding of `calculate_match_score` through `cappedTotal`. -/
theorem calculate_match_score_eq (yt : YtResult) (track : Track) (strict : Bool) :
    calculate_match_score yt track strict =
      match score_components yt track with
      | .error _ => 0
      | .ok c => if thresholdFor strict ≤ cappedTotal c then cappedTotal c else 0 := by
  unfold calculate_match_score cappedTotal rawTotal
  cases score_components yt track <;> rfl

/-- The thresholds are positive. -/
theorem thresholdFor_pos (strict : Bool) : 0 < thresholdFor strict := by
  cases strict <;> norm_num [thresholdFor]

/-! ### Concrete scorer inputs used in counterexamples and witnesses -/

/-- A candidate whose duration matches exactly and whose single artist matches,
but whose title shares nothing with the catalog title. -/
def yt0 : YtResult :=
  { title := "xyz", videoId := "v", duration_seconds := 100,
    artists := [.dictNamed "a"], album := none }

/-- A catalog track with duration 100, single artist "a", title "qqq". -/
def tr0 : Track :=
  { name := "qqq", artists := ["a"], album_name := "", release_date := "",
    duration := 100, source_type := "album", playlist_name := "", cover_url := "" }

/-- Like `yt0` but with a title identical to `tr0`'s. -/
def ytW : YtResult :=
  { title := "qqq", videoId := "v", duration_seconds := 100,
    artists := [.dictNamed "a"], album := none }

/-- A catalog track with an empty artist list. -/
def trNoArtists : Track :=
  { name := "t", artists := [], album_name := "", release_date := "",
    duration := 0, source_type := "album", playlist_name := "", cover_url := "" }

/-! ### Claim C1 -/

/-- C1, counterexample. The claim says `_calculate_match_score` and
`explain_score` compute the same total and that the score operation returns `0`
exactly when that total is below the applied threshold. At this input the
explain operation reports total `1.4` with `passed = true` (threshold `0.6`),
while the score operation — whose low-title-similarity cap `explain_score`
lacks — returns `0`, refuting both conjuncts. -/
theorem c1_counterexample :
    calculate_match_score yt0 tr0 false = 0 ∧
    explain_score yt0 tr0 false = .breakdown
      { yt_title := "xyz", yt_videoId := "v", duration_score := 1, artist_score := 2/5,
        title_score := 0, album_bonus := 0, total_score := 7/5, threshold := 3/5,
        passed := true } ∧
    ¬ ((7 : ℚ)/5 < thresholdFor false) := by
  with_unfolding_all decide

/-- C1, amended. `_calculate_match_score` and `explain_score` share the four
sub-scores and the raw total; `explain_score` reports the raw total (rounded to
3 decimals) with `passed` decided against the raw total, while
`_calculate_match_score` first caps the total at `0.5` whenever the title
sub-score is below `0.1`, then returns `0` exactly when the capped total is
below the applied threshold (`0.7` strict, `0.6` otherwise). Whenever the title
sub-score is at least `0.1`, the original claim's pass/fail relation holds. -/
theorem c1_amended (yt : YtResult) (track : Track) (strict : Bool) :
    match score_components yt track with
    | .error _ =>
        calculate_match_score yt track strict = 0 ∧ explain_score yt track strict = .errorDict
    | .ok c =>
        calculate_match_score yt track strict =
          (if thresholdFor strict ≤ cappedTotal c then cappedTotal c else 0) ∧
        explain_score yt track strict = .breakdown
          { yt_title := yt.title, yt_videoId := yt.videoId,
            duration_score := pyRound3 c.dur, artist_score := pyRound3 c.art,
            title_score := pyRound3 c.tit, album_bonus := pyRound3 c.alb,
            total_score := pyRound3 (rawTotal c), threshold := thresholdFor strict,
            passed := decide (thresholdFor strict ≤ rawTotal c) } ∧
        (calculate_match_score yt track strict = 0 ↔ cappedTotal c < thresholdFor strict) ∧
        (1/10 ≤ c.tit →
          (calculate_match_score yt track strict = 0 ↔ rawTotal c < thresholdFor strict)) := by
  cases h : score_components yt track with
  | error e =>
      simp only [h]
      exact ⟨by rw [calculate_match_score_eq, h], by unfold explain_score; rw [h]⟩
  | ok c =>
      simp only [h]
      have hcalc : calculate_match_score yt track strict =
          (if thresholdFor strict ≤ cappedTotal c then cappedTotal c else 0) := by
        rw [calculate_match_score_eq, h]
      have hiff : calculate_match_score yt track strict = 0 ↔
          cappedTotal c < thresholdFor strict := by
        rw [hcalc]
        by_cases hle : thresholdFor strict ≤ cappedTotal c
        · rw [if_pos hle]
          constructor
          · intro h0
            rw [h0] at hle
            exact absurd hle (not_le.mpr (thresholdFor_pos strict))
          · intro hlt
            exact absurd hle (not_le.mpr hlt)
        · rw [if_neg hle]
          exact ⟨fun _ => not_le.mp hle, fun _ => rfl⟩
      refine ⟨hcalc, ?_, hiff, ?_⟩
      · unfold explain_score
        rw [h]
        rfl
      · intro htit
        have hcap : cappedTotal c = rawTotal c := by
          unfold cappedTotal
          rw [if_neg (not_lt.mpr htit)]
        rw [← hcap]
        exact hiff

/-- C1 witness: the amended theorem applied at a passing input (identical titles,
exact duration match, matching artist) where the cap does not fire. -/
theorem c1_amended_witness :
    score_components ytW tr0 = .ok ⟨1, 2/5, 3/10, 0⟩ ∧
    calculate_match_score ytW tr0 false = 17/10 := by
  have hcomp : score_components ytW tr0 = .ok ⟨1, 2/5, 3/10, 0⟩ := by
    with_unfolding_all decide
  have h := c1_amended ytW tr0 false
  rw [hcomp] at h
  simp only at h
  refine ⟨hcomp, ?_⟩
  rw [h.1]
  with_unfolding_all decide

/-! ### Claim C7 -/

/-- Unfolding of `score_duration` through the natural-number distance. -/
theorem score_duration_eq (a b : Int) :
    score_duration a b =
      if (a - b).natAbs ≤ 2 then 1 else max 0 (1 - ((a - b).natAbs : ℚ)/5) * (3/10) := by
  unfold score_duration
  have hcond : (|a - b| ≤ 2) ↔ ((a - b).natAbs ≤ 2) := by
    rw [Int.abs_eq_natAbs]
    exact_mod_cast Iff.rfl
  have habs : ((|a - b| : ℤ) : ℚ) = ((a - b).natAbs : ℚ) := by
    rw [Int.cast_natAbs]
  by_cases hc : (a - b).natAbs ≤ 2
  · rw [if_pos (hcond.mpr hc), if_pos hc]
  · rw [if_neg (fun hx => hc (hcond.mp hx)), if_neg hc, habs]

/-- C7: the duration sub-score is `1` when the absolute duration difference `d`
is at most `2`; equals `max(0, 1 − d/5) × 0.3` for `2 < d < 5` and is strictly
decreasing in `d` there; and is `0` for every `d ≥ 5`. -/
theorem c7_duration_score :
    ∀ a b : Int,
      ((a - b).natAbs ≤ 2 → score_duration a b = 1) ∧
      (2 < (a - b).natAbs → (a - b).natAbs < 5 →
        score_duration a b = max 0 (1 - ((a - b).natAbs : ℚ)/5) * (3/10)) ∧
      (5 ≤ (a - b).natAbs → score_duration a b = 0) ∧
      (∀ a' b' : Int, 2 < (a - b).natAbs → (a - b).natAbs < (a' - b').natAbs →
        (a' - b').natAbs < 5 → score_duration a' b' < score_duration a b) := by
  intro a b
  refine ⟨?_, ?_, ?_, ?_⟩
  · intro h
    rw [score_duration_eq, if_pos h]
  · intro h2 _
    rw [score_duration_eq, if_neg (by omega)]
  · intro h
    rw [score_duration_eq, if_neg (by omega)]
    have h5 : (5 : ℚ) ≤ ((a - b).natAbs : ℚ) := by exact_mod_cast h
    have hx : (1 - ((a - b).natAbs : ℚ)/5) ≤ 0 := by linarith
    rw [max_eq_left hx]
    norm_num
  · intro a' b' h2 hlt h5
    have hd : (a - b).natAbs = 3 := by omega
    have hd' : (a' - b').natAbs = 4 := by omega
    rw [score_duration_eq, score_duration_eq, hd, hd']
    norm_num

/-- C7 witness: the theorem applied at durations (182, 180), and at distances 3
and 4 for the strict-decrease part. -/
theorem c7_duration_score_witness :
    ((182 - 180 : Int).natAbs ≤ 2 ∧ score_duration 182 180 = 1) ∧
    (2 < (103 - 100 : Int).natAbs ∧ (103 - 100 : Int).natAbs < (104 - 100 : Int).natAbs ∧
      (104 - 100 : Int).natAbs < 5 ∧ score_duration 104 100 < score_duration 103 100) :=
  ⟨⟨by decide, (c7_duration_score 182 180).1 (by decide)⟩,
   ⟨by decide, by decide, by decide,
     (c7_duration_score 103 100).2.2.2 104 100 (by decide) (by decide) (by decide)⟩⟩

/-! ### Claim C9 -/

/-- C9: when the catalog track's artist list is empty, `_score_artist_overlap`
raises (`sp_artists[0]`), `_calculate_match_score` catches the exception and
returns `0`, and `explain_score` returns the error dict instead of a breakdown. -/
theorem c9_empty_artists :
    ∀ (yt : YtResult) (track : Track) (strict : Bool), track.artists = [] →
      calculate_match_score yt track strict = 0 ∧
        explain_score yt track strict = .errorDict := by
  intro yt track strict h
  have herr : ∃ e, score_components yt track = .error e := by
    unfold score_components score_artist_overlap
    rw [h]
    cases hn : yt_artist_names yt.artists with
    | error e => exact ⟨e, rfl⟩
    | ok names => exact ⟨.indexError, rfl⟩
  obtain ⟨e, he⟩ := herr
  constructor
  · rw [calculate_match_score_eq, he]
  · unfold explain_score
    rw [he]

/-- C9 witness: the theorem applied to `yt0` and a concrete artistless track. -/
theorem c9_empty_artists_witness :
    trNoArtists.artists = [] ∧
    calculate_match_score yt0 trNoArtists false = 0 ∧
    explain_score yt0 trNoArtists false = .errorDict :=
  ⟨rfl, (c9_empty_artists yt0 trNoArtists false rfl).1,
    (c9_empty_artists yt0 trNoArtists false rfl).2⟩

/-! ### The filename sanitizer (YouTubeDownloader._sanitize_filename) -/

/-- The Windows-reserved characters replaced by `_` (`[<>:"/\\|?*]`). -/
def windows_bad_chars : List Char := ['<', '>', ':', '"', '/', '\\', '|', '?', '*']

/-- Collapse of every maximal whitespace run to a single space
(`re.sub(r"\s+", " ", ...)`). -/
def collapse_ws : List Char → List Char
  | [] => []
  | [c] => if pyIsSpace c then [' '] else [c]
  | c :: d :: rest =>
      if pyIsSpace c then
        (if pyIsSpace d then collapse_ws (d :: rest) else ' ' :: collapse_ws (d :: rest))
      else c :: collapse_ws (d :: rest)

/-- Python `str.strip(cs)`: drop characters of `cs` from both ends. -/
def strip_chars (cs : List Char) (s : List Char) : List Char :=
  ((s.dropWhile (fun c => cs.contains c)).reverse.dropWhile (fun c => cs.contains c)).reverse

/-- Python `str.strip()` with no argument: drop whitespace from both ends. -/
def strip_ws (s : List Char) : List Char :=
  ((s.dropWhile pyIsSpace).reverse.dropWhile pyIsSpace).reverse

/-- Embedding of `YouTubeDownloader._sanitize_filename` on the character list:
replace Windows-reserved characters with `_`, normalize en/em dashes to `-`,
collapse whitespace runs to single spaces, strip leading/trailing dots and
spaces, and, when the result exceeds 200 characters, truncate to 200 and strip
again — the source's final `.strip()` takes no argument, so this last trim
removes whitespace only, not dots. -/
def sanitize_chars (s : List Char) : List Char :=
  let f := s.map (fun c => if windows_bad_chars.contains c then '_' else c)
  let f := f.map (fun c => if c = '–' then '-' else c)
  let f := f.map (fun c => if c = '—' then '-' else c)
  let f := collapse_ws f
  let f := strip_chars ['.', ' '] f
  if 200 < f.length then strip_ws (f.take 200) else f

/-- String-level `_sanitize_filename`. -/
def sanitize_filename (s : String) : String := ⟨sanitize_chars s.data⟩

/-! ### Claim C2 -/

/-- The failing input for C2: 199 `a`s followed by `.b` (201 characters). -/
def c2Input : String := ⟨List.replicate 199 'a' ++ ['.', 'b']⟩

/-- C2: the sanitizer is not idempotent. On `c2Input`, truncation to 200
characters leaves a trailing dot which the final argumentless `.strip()` does
not remove; a second application strips that dot, so the results differ. -/
theorem c2_sanitize_not_idempotent :
    sanitize_filename c2Input = ⟨List.replicate 199 'a' ++ ['.']⟩ ∧
    sanitize_filename (sanitize_filename c2Input) = ⟨List.replicate 199 'a'⟩ ∧
    sanitize_filename (sanitize_filename c2Input) ≠ sanitize_filename c2Input := by
  with_unfolding_all decide

/-! ### Downloader: environment, effects, and paths

The downloader's collaborators (search client, yt-dlp fetch, tag writer, lyrics
client, filesystem, progress callback) are oracles collected in `Env`; the
observable side effects of a run are returned as an ordered trace
(`List Effect`). Filesystem paths are component lists rooted at the base
directory. -/

/-- A filesystem path as a list of components. -/
abbrev FsPath := List String

/-- The observable side effects of the downloader. -/
inductive Effect where
  | mkdirAll (path : FsPath)
  | resolverCall (trackName : String)
  | fetchAudioCall (url : String)
  | writeMetadata (path : FsPath)
  | unlinkFile (path : FsPath)
  | progressCb (idx total : Nat) (name : String)
  | nfoGenerate
  | coverSave (path : FsPath)
  | logErrorMsg
deriving DecidableEq

/-- Oracles for the downloader's external collaborators: the candidate resolver
(`searcher.search_track`), whether the audio fetch raises for a given locator,
whether the tag writer raises for a given track, whether the lyrics client
reports success, whether a (partial) file exists at a path when checked after a
failure, and whether a supplied progress callback raises when invoked. -/
structure Env where
  search : Track → Option String
  fetchRaises : String → Bool
  tagRaises : Track → Bool
  lyricsSaved : Track → Bool
  fileExists : FsPath → Bool
  cbRaises : Nat → Nat → String → Bool

/-- The `<album> (<year>)` directory component of `_get_output_path`: sanitized
album name (falling back to "Unknown Album") and the first 4 characters of the
raw release date (falling back to "Unknown"). -/
def album_dir_component (track : Track) : String :=
  sanitize_filename (if track.album_name = "" then "Unknown Album" else track.album_name) ++
    " (" ++ (if track.release_date = "" then "Unknown" else ⟨track.release_date.data.take 4⟩) ++ ")"

/-- The directory part of `_get_output_path`. For a playlist-sourced track:
`base/<sanitized playlist name>`. Otherwise the artist directory is — by the
source's operator precedence `(album_artist or track.artists[0]) if
track.artists else "Unknown Artist"` — the override (when supplied and
non-empty) or else the primary artist when the artist list is non-empty, and
the literal "Unknown Artist" when the artist list is empty. -/
def output_dir (base : FsPath) (track : Track) (album_artist : Option String) : FsPath :=
  if track.source_type = "playlist" then
    base ++ [sanitize_filename
      (if track.playlist_name = "" then "Unknown Playlist" else track.playlist_name)]
  else
    let artist_name :=
      match track.artists with
      | [] => "Unknown Artist"
      | a0 :: _ =>
          match album_artist with
          | some s => if s = "" then a0 else s
          | none => a0
    base ++ [sanitize_filename artist_name, album_dir_component track]

/-- The full output file path of `_get_output_path`:
`<dir>/<sanitized track name>.<format>`. -/
def output_file (base : FsPath) (track : Track) (album_artist : Option String)
    (fmt : String) : FsPath :=
  output_dir base track album_artist ++
    [sanitize_filename (if track.name = "" then "Unknown Track" else track.name) ++ "." ++ fmt]

/-- The cleanup trace of `download_track`'s exception handler: log the error,
then delete the partially-written output file if it exists. -/
def track_fail_fx (env : Env) (p : FsPath) : List Effect :=
  if env.fileExists p then [Effect.logErrorMsg, Effect.unlinkFile p] else [Effect.logErrorMsg]

/-! ### YouTubeDownloader.download_track -/

/-- Embedding of `YouTubeDownloader.download_track`. In source order: compute
the output path (which makes the directory tree as a side effect), query the
resolver, build the fetch options; on no candidate, log and return
`(None, None)`; otherwise fetch the audio, (best-effort) fetch cover art, write
metadata, and optionally save lyrics, folding the lyrics outcome into the
returned track. Any exception from the fetch or the tag write is caught: the
error is logged, the partial output file is deleted if it exists, and
`(None, None)` is returned. The cover and lyrics steps catch their own errors
internally and cannot raise. -/
def download_track (env : Env) (base : FsPath) (track : Track) (fmt : String)
    (album_artist : Option String) (download_lyrics : Bool) :
    (Option FsPath × Option Track) × List Effect :=
  let dir := output_dir base track album_artist
  let p := output_file base track album_artist fmt
  let e0 := [Effect.mkdirAll dir, Effect.resolverCall track.name]
  match env.search track with
  | none => ((none, none), e0 ++ [Effect.logErrorMsg])
  | some url =>
      if env.fetchRaises url then
        ((none, none), e0 ++ [Effect.fetchAudioCall url] ++ track_fail_fx env p)
      else if env.tagRaises track then
        ((none, none), e0 ++ [Effect.fetchAudioCall url] ++ track_fail_fx env p)
      else
        ((some p, some (if download_lyrics then
            track.with_lyrics_status (env.lyricsSaved track) else track)),
         e0 ++ [Effect.fetchAudioCall url, Effect.writeMetadata p])

/-! ### YouTubeDownloader.download_album_cli -/

/-- One iteration of `download_album_cli`'s loop, whole body inside the
per-track `try`: invoke the progress callback when supplied (a raise is caught
by this handler); query the resolver, raising `ValueError` when no candidate
(caught, logged); evaluate `album.artists[0]` (an empty artist list raises
`IndexError`, caught); run `download_track` and count success when it returned
an audio path. -/
def album_cli_step (env : Env) (base : FsPath) (album : Album) (fmt : String)
    (download_lyrics : Bool) (cbProvided : Bool) (t : Track) (idx success : Nat) :
    Nat × List Effect :=
  if cbProvided && env.cbRaises idx album.tracks.length t.name then
    (success, [Effect.progressCb idx album.tracks.length t.name, Effect.logErrorMsg])
  else
    match env.search t with
    | none =>
        (success,
         (if cbProvided then [Effect.progressCb idx album.tracks.length t.name] else []) ++
           [Effect.resolverCall t.name, Effect.logErrorMsg])
    | some _ =>
        match album.artists with
        | [] =>
            (success,
             (if cbProvided then [Effect.progressCb idx album.tracks.length t.name] else []) ++
               [Effect.resolverCall t.name, Effect.logErrorMsg])
        | a0 :: _ =>
            (if (download_track env base t fmt (some a0) download_lyrics).1.1.isSome then
               success + 1
             else success,
             (if cbProvided then [Effect.progressCb idx album.tracks.length t.name] else []) ++
               [Effect.resolverCall t.name] ++
               (download_track env base t fmt (some a0) download_lyrics).2)

/-- The `for idx, track in enumerate(album.tracks, 1)` loop of
`download_album_cli`, threading the success counter. -/
def album_cli_loop (env : Env) (base : FsPath) (album : Album) (fmt : String)
    (download_lyrics : Bool) (cbProvided : Bool) :
    List Track → Nat → Nat → Nat × List Effect
  | [], _, success => (success, [])
  | t :: rest, idx, success =>
      let st := album_cli_step env base album fmt download_lyrics cbProvided t idx success
      let r := album_cli_loop env base album fmt download_lyrics cbProvided rest (idx + 1) st.1
      (r.1, st.2 ++ r.2)

/-- Embedding of `YouTubeDownloader.download_album_cli`: empty track list short
circuits to `(0, 0)` with only a log; otherwise run the loop, and if at least
one track succeeded, compute the album directory (`album.artists[0]`: an
`IndexError` here would escape, but is unreachable since a success implies a
non-empty artist list), generate the NFO when requested, and save the album
cover when requested and a cover URL is present. -/
def download_album_cli (env : Env) (base : FsPath) (album : Album) (fmt : String)
    (download_lyrics nfo cover cbProvided : Bool) :
    Except PyErr (Nat × Nat) × List Effect :=
  if album.tracks = [] then (.ok (0, 0), [Effect.logErrorMsg])
  else
    let r := album_cli_loop env base album fmt download_lyrics cbProvided album.tracks 1 0
    if 0 < r.1 then
      match album.artists with
      | [] => (.error .indexError, r.2)
      | a0 :: _ =>
          let dir : FsPath :=
            base ++ [a0, album.name ++ " (" ++ (⟨album.release_date.data.take 4⟩ : String) ++ ")"]
          (.ok (r.1, album.tracks.length),
            r.2 ++ (if nfo then [Effect.nfoGenerate] else []) ++
              (if cover ∧ album.cover_url ≠ "" then [Effect.coverSave (dir ++ ["cover.jpg"])] else []))
    else (.ok (r.1, album.tracks.length), r.2)

/-! ### YouTubeDownloader.download_playlist_cli -/

/-- One iteration of `download_playlist_cli`'s loop, whole body inside the
per-track `try`: invoke the progress callback when supplied (a raise is caught
by this handler), run `download_track` (no album-artist override), and count
success when it returned an updated track. -/
def playlist_cli_step (env : Env) (base : FsPath) (fmt : String)
    (download_lyrics : Bool) (cbProvided : Bool) (total : Nat) (t : Track)
    (idx success : Nat) : Nat × List Effect :=
  if cbProvided && env.cbRaises idx total t.name then
    (success, [Effect.progressCb idx total t.name, Effect.logErrorMsg])
  else
    (if (download_track env base t fmt none download_lyrics).1.2.isSome then
       success + 1
     else success,
     (if cbProvided then [Effect.progressCb idx total t.name] else []) ++
       (download_track env base t fmt none download_lyrics).2)

/-- The track loop of `download_playlist_cli`. -/
def playlist_cli_loop (env : Env) (base : FsPath) (fmt : String)
    (download_lyrics : Bool) (cbProvided : Bool) (total : Nat) :
    List Track → Nat → Nat → Nat × List Effect
  | [], _, success => (success, [])
  | t :: rest, idx, success =>
      let st := playlist_cli_step env base fmt download_lyrics cbProvided total t idx success
      let r := playlist_cli_loop env base fmt download_lyrics cbProvided total rest (idx + 1) st.1
      (r.1, st.2 ++ r.2)

/-- Embedding of `YouTubeDownloader.download_playlist_cli`: an empty name or an
empty track list short circuits to `(0, 0)` with only a log; otherwise make the
output directory `base/<raw playlist name>`, run the loop, and save the playlist
cover only when at least one track succeeded, the cover was requested, and a
cover URL is present. -/
def download_playlist_cli (env : Env) (base : FsPath) (pl : Playlist) (fmt : String)
    (download_lyrics cover cbProvided : Bool) : (Nat × Nat) × List Effect :=
  if pl.name = "" ∨ pl.tracks = [] then ((0, 0), [Effect.logErrorMsg])
  else
    let dir : FsPath := base ++ [pl.name]
    let r := playlist_cli_loop env base fmt download_lyrics cbProvided pl.tracks.length
      pl.tracks 1 0
    ((r.1, pl.tracks.length),
      Effect.mkdirAll dir :: r.2 ++
        (if 0 < r.1 ∧ cover ∧ pl.cover_url ≠ "" then [Effect.coverSave (dir ++ ["cover.jpg"])] else []))

/-! ### Concrete downloader fixtures -/

/-- An environment whose resolver finds nothing and in which nothing raises. -/
def envNone : Env :=
  { search := fun _ => none, fetchRaises := fun _ => false, tagRaises := fun _ => false,
    lyricsSaved := fun _ => false, fileExists := fun _ => false,
    cbRaises := fun _ _ _ => false }

/-- An environment whose resolver always answers "u" and whose audio fetch
always raises, with the partial output file left existing. -/
def envFetchFail : Env :=
  { search := fun _ => some "u", fetchRaises := fun _ => true, tagRaises := fun _ => false,
    lyricsSaved := fun _ => false, fileExists := fun _ => true,
    cbRaises := fun _ _ _ => false }

/-- An environment whose resolver always answers "u" and whose progress callback
always raises. -/
def envCbRaise : Env :=
  { search := fun _ => some "u", fetchRaises := fun _ => false, tagRaises := fun _ => false,
    lyricsSaved := fun _ => false, fileExists := fun _ => false,
    cbRaises := fun _ _ _ => true }

/-- An album-sourced track named "t" by artist "A". -/
def trA : Track :=
  { name := "t", artists := ["A"], album_name := "", release_date := "",
    duration := 0, source_type := "album", playlist_name := "", cover_url := "" }

/-- An album with an empty name but one track — `download_album_cli` never
checks the name. -/
def albumNoName : Album :=
  { name := "", artists := ["A"], release_date := "", cover_url := "", tracks := [trA] }

/-- A one-track album with a name. -/
def albumOne : Album :=
  { name := "Al", artists := ["A"], release_date := "2020", cover_url := "", tracks := [trA] }

/-- An album with no tracks. -/
def albumEmptyTracks : Album :=
  { name := "Al", artists := ["A"], release_date := "2020", cover_url := "", tracks := [] }

/-- A playlist with an empty name and one track. -/
def plNoName : Playlist := { name := "", cover_url := "", tracks := [trA] }

/-- A valid one-track playlist. -/
def plOne : Playlist := { name := "P", cover_url := "", tracks := [trA] }

/-! ### Claim C10 -/

/-- C10: `download_track` computes the output path — creating the directory tree
as the `mkdirAll` side effect — before querying the candidate resolver, so a
no-match outcome returns `(None, None)` with the directory already created (the
trace lists the `mkdirAll` strictly before the resolver call). -/
theorem c10_path_before_resolver :
    ∀ (env : Env) (base : FsPath) (track : Track) (fmt : String)
      (album_artist : Option String) (dl : Bool),
      env.search track = none →
      download_track env base track fmt album_artist dl =
        ((none, none),
         [Effect.mkdirAll (output_dir base track album_artist),
          Effect.resolverCall track.name, Effect.logErrorMsg]) := by
  intro env base track fmt aa dl h
  unfold download_track
  rw [h]
  rfl

/-- C10 witness: the theorem applied to a concrete resolver-miss environment. -/
theorem c10_path_before_resolver_witness :
    envNone.search trA = none ∧
    download_track envNone ["Music"] trA "m4a" none false =
      ((none, none),
       [Effect.mkdirAll (output_dir ["Music"] trA none),
        Effect.resolverCall trA.name, Effect.logErrorMsg]) :=
  ⟨rfl, c10_path_before_resolver envNone ["Music"] trA "m4a" none false rfl⟩

/-! ### Claim C6 -/

/-- C6: when the resolver returns a candidate and the fetch or the tag write
raises, `download_track` catches the exception, logs it, deletes the
partially-written output file exactly when it exists, and returns
`(None, None)`; being a total function into a plain pair, it propagates nothing
to the batch loops. -/
theorem c6_failure_cleanup :
    ∀ (env : Env) (base : FsPath) (track : Track) (fmt : String)
      (album_artist : Option String) (dl : Bool) (url : String),
      env.search track = some url →
      (env.fetchRaises url = true ∨ env.tagRaises track = true) →
      download_track env base track fmt album_artist dl =
        ((none, none),
         [Effect.mkdirAll (output_dir base track album_artist),
          Effect.resolverCall track.name, Effect.fetchAudioCall url] ++
          track_fail_fx env (output_file base track album_artist fmt)) ∧
      (env.fileExists (output_file base track album_artist fmt) = true →
        Effect.unlinkFile (output_file base track album_artist fmt) ∈
          (download_track env base track fmt album_artist dl).2) ∧
      (env.fileExists (output_file base track album_artist fmt) = false →
        ∀ p, Effect.unlinkFile p ∉ (download_track env base track fmt album_artist dl).2) := by
  intro env base track fmt aa dl url hs hor
  have hmain : download_track env base track fmt aa dl =
      ((none, none),
       [Effect.mkdirAll (output_dir base track aa),
        Effect.resolverCall track.name, Effect.fetchAudioCall url] ++
        track_fail_fx env (output_file base track aa fmt)) := by
    unfold download_track
    by_cases hf : env.fetchRaises url = true
    · simp [hs, hf]
    · rcases hor with h | h
      · exact absurd h hf
      · simp [hs, hf, h]
  refine ⟨hmain, ?_, ?_⟩
  · intro hex
    rw [hmain]
    unfold track_fail_fx
    rw [if_pos hex]
    simp
  · intro hex p
    rw [hmain]
    unfold track_fail_fx
    rw [if_neg (by simp [hex])]
    simp

/-- C6 witness: the theorem applied to a concrete always-fetch-failing
environment in which the partial file exists. -/
theorem c6_failure_cleanup_witness :
    envFetchFail.search trA = some "u" ∧
    (envFetchFail.fetchRaises "u" = true ∨ envFetchFail.tagRaises trA = true) ∧
    download_track envFetchFail ["Music"] trA "m4a" none false =
      ((none, none),
       [Effect.mkdirAll (output_dir ["Music"] trA none),
        Effect.resolverCall trA.name, Effect.fetchAudioCall "u"] ++
        track_fail_fx envFetchFail (output_file ["Music"] trA none "m4a")) :=
  ⟨rfl, Or.inl rfl,
   (c6_failure_cleanup envFetchFail ["Music"] trA "m4a" none false "u" rfl (Or.inl rfl)).1⟩

/-! ### Claim C5 -/

/-- C5, counterexample. The claim says a supplied album-artist override is used
even when the track's artist list is empty. By the source's operator precedence
(`album_artist or track.artists[0] if track.artists else "Unknown Artist"`),
an empty artist list yields "Unknown Artist" regardless of the override. -/
theorem c5_counterexample :
    output_dir ["Music"] trNoArtists (some "X") =
      ["Music", "Unknown Artist", "Unknown Album (Unknown)"] ∧
    output_dir ["Music"] trNoArtists (some "X") ≠
      ["Music", "X", "Unknown Album (Unknown)"] := by
  decide

/-- C5, amended. For an album-sourced (or singleton) track: when the artist
list is non-empty, the artist directory is the override when supplied and
non-empty, else the primary (first-listed) artist; when the artist list is
empty, it is the literal "Unknown Artist" regardless of any override. -/
theorem c5_artist_directory :
    (∀ (base : FsPath) (track : Track) (s a0 : String) (rest : List String),
        track.source_type ≠ "playlist" → track.artists = a0 :: rest → s ≠ "" →
        output_dir base track (some s) =
          base ++ [sanitize_filename s, album_dir_component track]) ∧
    (∀ (base : FsPath) (track : Track) (a0 : String) (rest : List String),
        track.source_type ≠ "playlist" → track.artists = a0 :: rest →
        output_dir base track none =
          base ++ [sanitize_filename a0, album_dir_component track] ∧
        output_dir base track (some "") =
          base ++ [sanitize_filename a0, album_dir_component track]) ∧
    (∀ (base : FsPath) (track : Track) (album_artist : Option String),
        track.source_type ≠ "playlist" → track.artists = [] →
        output_dir base track album_artist =
          base ++ ["Unknown Artist", album_dir_component track]) := by
  refine ⟨?_, ?_, ?_⟩
  · intro base track s a0 rest hplay hart hs
    unfold output_dir
    rw [if_neg hplay, hart]
    simp [hs]
  · intro base track a0 rest hplay hart
    constructor
    · unfold output_dir
      rw [if_neg hplay, hart]
    · unfold output_dir
      rw [if_neg hplay, hart]
      simp
  · intro base track aa hplay hart
    unfold output_dir
    rw [if_neg hplay, hart]
    have h1 : sanitize_filename "Unknown Artist" = "Unknown Artist" := by decide
    simp [h1]

/-- C5 witness: the amended theorem applied at a non-empty override with a
non-empty artist list, at no override, and at an empty artist list. -/
theorem c5_artist_directory_witness :
    (trA.source_type ≠ "playlist" ∧ trA.artists = "A" :: [] ∧ ("X" : String) ≠ "" ∧
      output_dir [] trA (some "X") = [] ++ [sanitize_filename "X", album_dir_component trA]) ∧
    output_dir [] trA none = [] ++ [sanitize_filename "A", album_dir_component trA] ∧
    (trNoArtists.artists = [] ∧
      output_dir [] trNoArtists (some "X") =
        [] ++ ["Unknown Artist", album_dir_component trNoArtists]) :=
  ⟨⟨by decide, rfl, by decide,
     c5_artist_directory.1 [] trA "X" "A" [] (by decide) rfl (by decide)⟩,
   (c5_artist_directory.2.1 [] trA "A" [] (by decide) rfl).1,
   ⟨rfl, c5_artist_directory.2.2 [] trNoArtists (some "X") (by decide) rfl⟩⟩

/-! ### Claim C3 -/

/-- C3, counterexample. An album with an empty name and a non-empty track list
is not rejected: the batch proceeds, calls the resolver, and returns `(0, 1)`
(the resolver found nothing), not `(0, 0)`. -/
theorem c3_counterexample :
    (download_album_cli envNone [] albumNoName "m4a" false false false false).1 = .ok (0, 1) ∧
    (download_album_cli envNone [] albumNoName "m4a" false false false false).1 ≠ .ok (0, 0) ∧
    Effect.resolverCall "t" ∈
      (download_album_cli envNone [] albumNoName "m4a" false false false false).2 := by
  decide

/-- C3, amended. `download_playlist_cli` returns `(0, 0)` immediately — with a
log as the only effect (no directory creation, no resolver or fetch call, no
collection side effect) — when the playlist name is empty or its track list is
empty; `download_album_cli` does so only when the track list is empty (the album
name is never checked). -/
theorem c3_invalid_collection :
    (∀ (env : Env) (base : FsPath) (pl : Playlist) (fmt : String) (dl cover cb : Bool),
        pl.name = "" ∨ pl.tracks = [] →
        download_playlist_cli env base pl fmt dl cover cb = ((0, 0), [Effect.logErrorMsg])) ∧
    (∀ (env : Env) (base : FsPath) (album : Album) (fmt : String) (dl nfo cover cb : Bool),
        album.tracks = [] →
        download_album_cli env base album fmt dl nfo cover cb =
          (.ok (0, 0), [Effect.logErrorMsg])) := by
  constructor
  · intro env base pl fmt dl cover cb h
    unfold download_playlist_cli
    rw [if_pos h]
  · intro env base album fmt dl nfo cover cb h
    unfold download_album_cli
    rw [if_pos h]

/-- C3 witness: the amended theorem applied to an empty-named playlist and an
empty-tracked album. -/
theorem c3_invalid_collection_witness :
    (plNoName.name = "" ∨ plNoName.tracks = []) ∧
    download_playlist_cli envNone [] plNoName "m4a" false false false =
      ((0, 0), [Effect.logErrorMsg]) ∧
    albumEmptyTracks.tracks = [] ∧
    download_album_cli envNone [] albumEmptyTracks "m4a" false false false false =
      (.ok (0, 0), [Effect.logErrorMsg]) :=
  ⟨Or.inl rfl,
   c3_invalid_collection.1 envNone [] plNoName "m4a" false false false (Or.inl rfl),
   rfl,
   c3_invalid_collection.2 envNone [] albumEmptyTracks "m4a" false false false false rfl⟩

/-! ### Claim C4 -/

/-- C4, counterexample. The claim says a throwing progress callback still lets
that track's acquisition be attempted. In the source the callback is invoked
inside the per-track `try`, so its exception is caught by the per-track handler
and the track is skipped entirely: on a one-track album the resolver is never
called and the batch returns `(0, 1)`. -/
theorem c4_counterexample :
    (download_album_cli envCbRaise [] albumOne "m4a" false false false true).1 = .ok (0, 1) ∧
    Effect.resolverCall "t" ∉
      (download_album_cli envCbRaise [] albumOne "m4a" false false false true).2 ∧
    Effect.progressCb 1 1 "t" ∈
      (download_album_cli envCbRaise [] albumOne "m4a" false false false true).2 := by
  decide

/-- C4, amended. In both batch loops, a throwing progress callback is caught by
the per-track handler: the callback invocation and a logged error are the only
effects of that iteration, the track's acquisition is not attempted and counts
as failed (the success counter is unchanged), and the loop proceeds with the
remaining tracks. -/
theorem c4_callback_raise :
    (∀ (env : Env) (base : FsPath) (album : Album) (fmt : String) (dl : Bool)
        (t : Track) (rest : List Track) (idx success : Nat),
        env.cbRaises idx album.tracks.length t.name = true →
        album_cli_loop env base album fmt dl true (t :: rest) idx success =
          (let r := album_cli_loop env base album fmt dl true rest (idx + 1) success
           (r.1, Effect.progressCb idx album.tracks.length t.name ::
             Effect.logErrorMsg :: r.2))) ∧
    (∀ (env : Env) (base : FsPath) (fmt : String) (dl : Bool) (total : Nat)
        (t : Track) (rest : List Track) (idx success : Nat),
        env.cbRaises idx total t.name = true →
        playlist_cli_loop env base fmt dl true total (t :: rest) idx success =
          (let r := playlist_cli_loop env base fmt dl true total rest (idx + 1) success
           (r.1, Effect.progressCb idx total t.name :: Effect.logErrorMsg :: r.2))) := by
  constructor
  · intro env base album fmt dl t rest idx success h
    simp only [album_cli_loop, album_cli_step, Bool.true_and, h, if_true]
    rfl
  · intro env base fmt dl total t rest idx success h
    simp only [playlist_cli_loop, playlist_cli_step, Bool.true_and, h, if_true]
    rfl

/-- C4 witness: the amended theorem applied to the always-raising callback
environment on a one-track album. -/
theorem c4_callback_raise_witness :
    envCbRaise.cbRaises 1 albumOne.tracks.length trA.name = true ∧
    album_cli_loop envCbRaise [] albumOne "m4a" false true [trA] 1 0 =
      (let r := album_cli_loop envCbRaise [] albumOne "m4a" false true [] 2 0
       (r.1, Effect.progressCb 1 albumOne.tracks.length trA.name ::
         Effect.logErrorMsg :: r.2)) :=
  ⟨rfl, c4_callback_raise.1 envCbRaise [] albumOne "m4a" false trA [] 1 0 rfl⟩

/-! ### Claim C8: machinery

The loops of the two batch functions never emit a collection-level effect; the
post-loop code emits them exactly under the guards of the source. -/

/-- Collection-level side effects: sidecar (NFO) generation and collection
cover saves. -/
def Effect.collectionLevel : Effect → Bool
  | .nfoGenerate => true
  | .coverSave _ => true
  | _ => false

/-- The cleanup trace of a failed track contains no collection-level effect. -/
theorem track_fail_fx_not_collection (env : Env) (p : FsPath) :
    ∀ e ∈ track_fail_fx env p, e.collectionLevel = false := by
  intro e he
  unfold track_fail_fx at he
  split at he
  · simp at he
    rcases he with rfl | rfl <;> rfl
  · simp at he
    subst he
    rfl

/-- The optional progress-callback effect is not collection-level. -/
theorem cb_fx_not_collection (cb : Bool) (idx total : Nat) (n : String) :
    ∀ e ∈ (if cb = true then [Effect.progressCb idx total n] else []),
      e.collectionLevel = false := by
  intro e he
  split at he
  · simp at he
    subst he
    rfl
  · simp at he

/-- `download_track` emits no collection-level effect. -/
theorem download_track_not_collection (env : Env) (base : FsPath) (t : Track)
    (fmt : String) (aa : Option String) (dl : Bool) :
    ∀ e ∈ (download_track env base t fmt aa dl).2, e.collectionLevel = false := by
  intro e he
  unfold download_track at he
  rcases hs : env.search t with _ | url <;> simp only [hs] at he
  · simp at he
    rcases he with rfl | rfl | rfl <;> rfl
  · split at he
    · rcases List.mem_append.mp he with h1 | h2
      · simp at h1
        rcases h1 with rfl | rfl | rfl <;> rfl
      · exact track_fail_fx_not_collection env _ e h2
    · split at he
      · rcases List.mem_append.mp he with h1 | h2
        · simp at h1
          rcases h1 with rfl | rfl | rfl <;> rfl
        · exact track_fail_fx_not_collection env _ e h2
      · simp at he
        rcases he with rfl | rfl | rfl | rfl <;> rfl

/-- One `download_album_cli` iteration leaves the counter unchanged when the
album's artist list is empty, and emits no collection-level effect. -/
theorem album_cli_step_facts (env : Env) (base : FsPath) (album : Album)
    (fmt : String) (dl cb : Bool) (t : Track) (idx success : Nat) :
    (album.artists = [] →
      (album_cli_step env base album fmt dl cb t idx success).1 = success) ∧
    (∀ e ∈ (album_cli_step env base album fmt dl cb t idx success).2,
      e.collectionLevel = false) := by
  unfold album_cli_step
  split
  · refine ⟨fun _ => rfl, ?_⟩
    intro e he
    simp at he
    rcases he with rfl | rfl <;> rfl
  · rcases hs : env.search t with _ | url <;> simp only [hs]
    · refine ⟨fun _ => trivial, ?_⟩
      intro e he
      rcases List.mem_append.mp he with h1 | h2
      · exact cb_fx_not_collection cb idx album.tracks.length t.name e h1
      · simp at h2
        rcases h2 with rfl | rfl <;> rfl
    · rcases hA : album.artists with _ | ⟨a0, rest⟩ <;> simp only [hA]
      · refine ⟨fun _ => trivial, ?_⟩
        intro e he
        rcases List.mem_append.mp he with h1 | h2
        · exact cb_fx_not_collection cb idx album.tracks.length t.name e h1
        · simp at h2
          rcases h2 with rfl | rfl <;> rfl
      · constructor
        · intro h
          simp at h
        · intro e he
          rcases List.mem_append.mp he with h1 | h2
          · rcases List.mem_append.mp h1 with h3 | h4
            · exact cb_fx_not_collection cb idx album.tracks.length t.name e h3
            · simp at h4
              subst h4
              rfl
          · exact download_track_not_collection env base t fmt (some a0) dl e h2

/-- The `download_album_cli` loop leaves the counter unchanged when the album's
artist list is empty, and emits no collection-level effect. -/
theorem album_cli_loop_facts (env : Env) (base : FsPath) (album : Album)
    (fmt : String) (dl cb : Bool) :
    ∀ (tracks : List Track) (idx success : Nat),
      (album.artists = [] →
        (album_cli_loop env base album fmt dl cb tracks idx success).1 = success) ∧
      (∀ e ∈ (album_cli_loop env base album fmt dl cb tracks idx success).2,
        e.collectionLevel = false) := by
  intro tracks
  induction tracks with
  | nil =>
      intro idx success
      refine ⟨fun _ => rfl, ?_⟩
      intro e he
      simp [album_cli_loop] at he
  | cons t rest ih =>
      intro idx success
      have hstep := album_cli_step_facts env base album fmt dl cb t idx success
      have hih := ih (idx + 1) (album_cli_step env base album fmt dl cb t idx success).1
      constructor
      · intro hA
        simp only [album_cli_loop]
        rw [hstep.1 hA]
        exact (ih (idx + 1) success).1 hA
      · intro e he
        simp only [album_cli_loop] at he
        rcases List.mem_append.mp he with h1 | h2
        · exact hstep.2 e h1
        · exact hih.2 e h2

/-- One `download_playlist_cli` iteration emits no collection-level effect. -/
theorem playlist_cli_step_not_collection (env : Env) (base : FsPath) (fmt : String)
    (dl cb : Bool) (total : Nat) (t : Track) (idx success : Nat) :
    ∀ e ∈ (playlist_cli_step env base fmt dl cb total t idx success).2,
      e.collectionLevel = false := by
  intro e he
  unfold playlist_cli_step at he
  split at he
  · simp at he
    rcases he with rfl | rfl <;> rfl
  · rcases List.mem_append.mp he with h1 | h2
    · exact cb_fx_not_collection cb idx total t.name e h1
    · exact download_track_not_collection env base t fmt none dl e h2

/-- The `download_playlist_cli` loop emits no collection-level effect. -/
theorem playlist_cli_loop_not_collection (env : Env) (base : FsPath) (fmt : String)
    (dl cb : Bool) (total : Nat) :
    ∀ (tracks : List Track) (idx success : Nat),
      ∀ e ∈ (playlist_cli_loop env base fmt dl cb total tracks idx success).2,
        e.collectionLevel = false := by
  intro tracks
  induction tracks with
  | nil =>
      intro idx success e he
      simp [playlist_cli_loop] at he
  | cons t rest ih =>
      intro idx success e he
      simp only [playlist_cli_loop] at he
      rcases List.mem_append.mp he with h1 | h2
      · exact playlist_cli_step_not_collection env base fmt dl cb total t idx success e h1
      · exact ih (idx + 1) _ e h2

/-- Run of `download_album_cli` on a non-empty track list with at least one
success: the NFO and cover effects are appended under their request guards. -/
theorem download_album_cli_run_pos (env : Env) (base : FsPath) (album : Album)
    (fmt : String) (dl nfo cover cb : Bool) (a0 : String) (rest : List String)
    (ht : ¬ album.tracks = []) (hA : album.artists = a0 :: rest)
    (hs : 0 < (album_cli_loop env base album fmt dl cb album.tracks 1 0).1) :
    download_album_cli env base album fmt dl nfo cover cb =
      (.ok ((album_cli_loop env base album fmt dl cb album.tracks 1 0).1,
        album.tracks.length),
       (album_cli_loop env base album fmt dl cb album.tracks 1 0).2 ++
         (if nfo = true then [Effect.nfoGenerate] else []) ++
         (if cover = true ∧ album.cover_url ≠ "" then
            [Effect.coverSave ((base ++ [a0, album.name ++ " (" ++
              (⟨album.release_date.data.take 4⟩ : String) ++ ")"]) ++ ["cover.jpg"])]
          else [])) := by
  unfold download_album_cli
  simp only [if_neg ht, hA, if_pos hs]

/-- Run of `download_album_cli` on a non-empty track list with zero successes:
the loop trace is the entire trace. -/
theorem download_album_cli_run_zero (env : Env) (base : FsPath) (album : Album)
    (fmt : String) (dl nfo cover cb : Bool)
    (ht : ¬ album.tracks = [])
    (hs : ¬ 0 < (album_cli_loop env base album fmt dl cb album.tracks 1 0).1) :
    download_album_cli env base album fmt dl nfo cover cb =
      (.ok ((album_cli_loop env base album fmt dl cb album.tracks 1 0).1,
        album.tracks.length),
       (album_cli_loop env base album fmt dl cb album.tracks 1 0).2) := by
  unfold download_album_cli
  simp only [if_neg ht, if_neg hs]

/-- Run of `download_playlist_cli` on a valid playlist. -/
theorem download_playlist_cli_run (env : Env) (base : FsPath) (pl : Playlist)
    (fmt : String) (dl cover cb : Bool)
    (hv : ¬ (pl.name = "" ∨ pl.tracks = [])) :
    download_playlist_cli env base pl fmt dl cover cb =
      (((playlist_cli_loop env base fmt dl cb pl.tracks.length pl.tracks 1 0).1,
        pl.tracks.length),
       Effect.mkdirAll (base ++ [pl.name]) ::
         (playlist_cli_loop env base fmt dl cb pl.tracks.length pl.tracks 1 0).2 ++
         (if 0 < (playlist_cli_loop env base fmt dl cb pl.tracks.length pl.tracks 1 0).1 ∧
             cover = true ∧ pl.cover_url ≠ "" then
            [Effect.coverSave ((base ++ [pl.name]) ++ ["cover.jpg"])]
          else [])) := by
  unfold download_playlist_cli
  simp only [if_neg hv]

/-- C8: in both batch functions the collection-level side effects (NFO sidecar
when requested; collection cover art when requested and a cover URL is present)
are emitted if and only if the success count is positive; the result is always
the pair (successes, number of tracks), so a batch where every track fails
returns `(0, N)` with neither side effect invoked. -/
theorem c8_collection_side_effects :
    (∀ (env : Env) (base : FsPath) (album : Album) (fmt : String) (dl nfo cover cb : Bool),
      ∃ (s : Nat) (E : List Effect),
        download_album_cli env base album fmt dl nfo cover cb =
          (.ok (s, album.tracks.length), E) ∧
        (Effect.nfoGenerate ∈ E ↔ (nfo = true ∧ 0 < s)) ∧
        ((∃ p, Effect.coverSave p ∈ E) ↔
          (cover = true ∧ album.cover_url ≠ "" ∧ 0 < s))) ∧
    (∀ (env : Env) (base : FsPath) (pl : Playlist) (fmt : String) (dl cover cb : Bool),
      pl.name ≠ "" → pl.tracks ≠ [] →
      ∃ (s : Nat) (E : List Effect),
        download_playlist_cli env base pl fmt dl cover cb = ((s, pl.tracks.length), E) ∧
        ((∃ p, Effect.coverSave p ∈ E) ↔
          (cover = true ∧ pl.cover_url ≠ "" ∧ 0 < s))) := by
  constructor
  · intro env base album fmt dl nfo cover cb
    by_cases ht : album.tracks = []
    · refine ⟨0, [Effect.logErrorMsg], ?_, ?_, ?_⟩
      · simp [download_album_cli, ht]
      · simp
      · simp
    · obtain ⟨hempty, hmem⟩ := album_cli_loop_facts env base album fmt dl cb album.tracks 1 0
      have hnfo : Effect.nfoGenerate ∉
          (album_cli_loop env base album fmt dl cb album.tracks 1 0).2 :=
        fun h => by simpa [Effect.collectionLevel] using hmem _ h
      have hcov : ∀ p, Effect.coverSave p ∉
          (album_cli_loop env base album fmt dl cb album.tracks 1 0).2 :=
        fun p h => by simpa [Effect.collectionLevel] using hmem _ h
      by_cases hs : 0 < (album_cli_loop env base album fmt dl cb album.tracks 1 0).1
      · have hA : album.artists ≠ [] := fun h => by
          rw [hempty h] at hs
          exact Nat.lt_irrefl 0 hs
        obtain ⟨a0, rest, hal⟩ : ∃ a0 rest, album.artists = a0 :: rest := by
          cases hx : album.artists with
          | nil => exact absurd hx hA
          | cons a0 rest => exact ⟨a0, rest, rfl⟩
        rw [download_album_cli_run_pos env base album fmt dl nfo cover cb a0 rest ht hal hs]
        refine ⟨_, _, rfl, ?_, ?_⟩
        · by_cases hn : nfo = true <;> by_cases hcv : cover = true <;>
            by_cases hu : album.cover_url = "" <;>
              simp [hn, hcv, hu, hs, hnfo]
        · by_cases hn : nfo = true <;> by_cases hcv : cover = true <;>
            by_cases hu : album.cover_url = "" <;>
              simp [hn, hcv, hu, hs, hcov]
      · rw [download_album_cli_run_zero env base album fmt dl nfo cover cb ht hs]
        refine ⟨_, _, rfl, ?_, ?_⟩
        · simp [hs, hnfo]
        · simp [hs, hcov]
  · intro env base pl fmt dl cover cb hname htr
    have hv : ¬ (pl.name = "" ∨ pl.tracks = []) := by
      rintro (h | h)
      · exact hname h
      · exact htr h
    have hmem := playlist_cli_loop_not_collection env base fmt dl cb pl.tracks.length
      pl.tracks 1 0
    have hcov : ∀ p, Effect.coverSave p ∉
        (playlist_cli_loop env base fmt dl cb pl.tracks.length pl.tracks 1 0).2 :=
      fun p h => by simpa [Effect.collectionLevel] using hmem _ h
    rw [download_playlist_cli_run env base pl fmt dl cover cb hv]
    refine ⟨_, _, rfl, ?_⟩
    by_cases hs : 0 < (playlist_cli_loop env base fmt dl cb pl.tracks.length pl.tracks 1 0).1 <;>
      by_cases hcv : cover = true <;> by_cases hu : pl.cover_url = "" <;>
        simp [hs, hcv, hu, hcov]

/-- C8 witness: the theorem's playlist half applied to a concrete valid
playlist (whose run has zero successes, no cover requested). -/
theorem c8_collection_side_effects_witness :
    plOne.name ≠ "" ∧ plOne.tracks ≠ [] ∧
    (∃ (s : Nat) (E : List Effect),
      download_playlist_cli envNone [] plOne "m4a" false false false =
        ((s, plOne.tracks.length), E) ∧
      ((∃ p, Effect.coverSave p ∈ E) ↔
        (false = true ∧ plOne.cover_url ≠ "" ∧ 0 < s))) :=
  ⟨by decide, by decide,
   c8_collection_side_effects.2 envNone [] plOne "m4a" false false false
     (by decide) (by decide)⟩

end SpotifySaver
